import Mathlib

/-!
Verification development for the serializer registry, precedence-based
resolver and envelope facade of a binary serialization engine
(`SerializationService.ts`).  The registry, resolver and facade logic is
embedded directly from the source; concrete codec payload encodings,
`Util.getType`, `HeapData` accessors and the configuration record are
external collaborators that are not part of the given sources and are
modelled from the specification where needed (their doc comments say so).
-/

/-- Errors thrown by the service.  `rangeError` models a JS `RangeError`
carrying its message; `typeError` models the `TypeError` raised by JS when a
property of `undefined` is accessed. -/
inductive JsError : Type where
  | rangeError (msg : String)
  | typeError
deriving DecidableEq, Repr

/-- Runtime values handled by the serialization service.  Scalar kinds carry
their data; `heapData` is an actual `HeapData` envelope (its buffer is a list
of wire units, see `Wire`); `obj` is a JS object observed through the
properties the service probes: `partitionKey`, a `getPartitionHash` accessor
(presence and result), a numeric `hzCustomId` tag, a `getType` method
(presence and result) together with the `toBuffer` result, presence of
`readData`/`writeData` methods, presence of `readPortable`/`writePortable`
methods, numeric `factoryId`/`classId` fields, whether the object is
compact-serializable (instance of the generic compact record class or with a
constructor registered as compact), and its plain enumerable data fields.
JS numbers are modelled as rationals.  A wire unit (`Nat ⊕ JSVal`) is either
a genuine octet (header regions) or an opaque payload token. -/
inductive JSVal : Type where
  | undefVal : JSVal
  | null : JSVal
  | boolean (b : Bool) : JSVal
  | number (q : Rat) : JSVal
  | str (s : String) : JSVal
  | buffer (bs : List Nat) : JSVal
  | long (n : Int) : JSVal
  | bigintVal (n : Int) : JSVal
  | bigDecimal (unscaled : Int) (scale : Int) : JSVal
  | uuid (msb lsb : Int) : JSVal
  | localDate (y : Int) (m d : Nat) : JSVal
  | localTime (h m s n : Nat) : JSVal
  | localDateTime (y : Int) (mo d h mi s n : Nat) : JSVal
  | offsetDateTime (y : Int) (mo d h mi s n : Nat) (off : Int) : JSVal
  | arr (xs : List JSVal) : JSVal
  | heapData (bs : List (Nat ⊕ JSVal)) : JSVal
  | obj (partitionKey : Option JSVal)
        (getPartitionHashVal : Option Int)
        (hzCustomId : Option Int)
        (getTypeVal : Option Int)
        (bufferVal : List (Nat ⊕ JSVal))
        (hasDataMethods : Bool)
        (hasPortableMethods : Bool)
        (factoryId : Option Int)
        (classId : Option Int)
        (compactReg : Bool)
        (fields : List (String × JSVal)) : JSVal

/-- Wire unit: a genuine octet (`Sum.inl`) or an opaque payload token
(`Sum.inr`).  Header regions consist of octets only. -/
abbrev Wire : Type := Nat ⊕ JSVal

/-- Octet value of a wire unit (payload tokens read as 0). -/
def wireByte : Wire → Nat
  | Sum.inl b => b
  | Sum.inr _ => 0

/-- Unsigned 32-bit reduction of an integer. -/
def uint32 (i : Int) : Nat := (i % 4294967296).toNat

/-- Big-endian octets of an unsigned 32-bit value. -/
def be4 (u : Nat) : List Nat :=
  [u / 16777216 % 256, u / 65536 % 256, u / 256 % 256, u % 256]

/-- Big-endian 4-byte encoding of an integer (as `DataOutput.writeIntBE`). -/
def int32BE (i : Int) : List Nat := be4 (uint32 i)

/-- Little-endian 4-byte encoding of an integer. -/
def int32LE (i : Int) : List Nat := (be4 (uint32 i)).reverse

/-- Lift octets into wire units. -/
def wires (bs : List Nat) : List Wire := bs.map Sum.inl

/-- Big-endian int write as wire units (`writeIntBE`). -/
def writeIntBEw (i : Int) : List Wire := wires (int32BE i)

/-- Endianness-selected int write as wire units (`DataOutput.writeInt`,
which follows the output's configured byte order). -/
def writeIntw (be : Bool) (i : Int) : List Wire :=
  wires (if be then int32BE i else int32LE i)

/-- Signed 32-bit read of the first four wire units, in the given byte
order (as `DataInput.readInt`). -/
def readInt32 (be : Bool) (bs : List Wire) : Int :=
  match bs with
  | a :: b :: c :: d :: _ =>
    let u : Nat :=
      if be then wireByte a * 16777216 + wireByte b * 65536 + wireByte c * 256 + wireByte d
      else wireByte d * 16777216 + wireByte c * 65536 + wireByte b * 256 + wireByte a
    if u < 2147483648 then (u : Int) else (u : Int) - 4294967296
  | _ => 0

theorem length_int32BE (i : Int) : (int32BE i).length = 4 := rfl

theorem length_int32LE (i : Int) : (int32LE i).length = 4 := rfl

theorem length_writeIntBEw (i : Int) : (writeIntBEw i).length = 4 := rfl

theorem length_writeIntw (be : Bool) (i : Int) : (writeIntw be i).length = 4 := by
  cases be <;> rfl

theorem readInt32_writeIntBEw (i : Int) (h0 : 0 ≤ i) (h1 : i < 2147483648)
    (rest : List Wire) : readInt32 true (writeIntBEw i ++ rest) = i := by
  have hmod : i % 4294967296 = i := by omega
  simp only [writeIntBEw, wires, int32BE, be4, uint32, hmod, List.map_cons,
    List.map_nil, List.cons_append, List.nil_append, readInt32, wireByte,
    if_true, ite_true]
  have key : i.toNat / 16777216 % 256 * 16777216 + i.toNat / 65536 % 256 * 65536 +
      i.toNat / 256 % 256 * 256 + i.toNat % 256 = i.toNat := by
    have e1 : i.toNat / 256 / 256 = i.toNat / 65536 := by rw [Nat.div_div_eq_div_mul]
    have e2 : i.toNat / 65536 / 256 = i.toNat / 16777216 := by rw [Nat.div_div_eq_div_mul]
    have e3 : i.toNat / 16777216 / 256 = i.toNat / 4294967296 := by rw [Nat.div_div_eq_div_mul]
    omega
  rw [key]
  rw [if_pos (by omega : i.toNat < 2147483648)]
  omega

/-- Codec contract: a stable integer id, `write` producing payload wire
units, `read` consuming them (§4.1).  Both take the configured byte order.
Concrete payload encodings are external collaborators, out of the core's
scope, so the modelled codecs store the value as one opaque payload token
and read it back (deterministic, and `read` inverts `write`, exactly the
contract §4.1 demands of every collaborator). -/
structure Serializer where
  id : Int
  write : Bool → JSVal → List Wire
  read : Bool → List Wire → Option JSVal

/-- Modelled from the spec: a default codec for one value kind — payload is
a single opaque token carrying the value, read back unchanged (§4.1: read
consumes exactly the bytes written and returns an equivalent value).
Concrete ids of the default codecs are not given by the spec beyond being
stable distinct integers, so they are assigned consecutively here. -/
def specCodec (id : Int) : Serializer :=
  { id := id,
    write := fun _ v => [Sum.inr v],
    read := fun _ bs => match bs with
      | [Sum.inr v] => some v
      | _ => none }

def nullSerializer : Serializer := specCodec 0
def stringSerializer : Serializer := specCodec 1
def doubleSerializer : Serializer := specCodec 2
def byteSerializer : Serializer := specCodec 3
def booleanSerializer : Serializer := specCodec 4
def shortSerializer : Serializer := specCodec 5

/-- Modelled from the spec: the 32-bit integer codec.  Its payload is the
4-byte two's-complement encoding of the value in the configured byte order,
which is the one byte-exact fact the spec states about payload regions
(§6: the payload region follows the configured order). -/
def integerSerializer : Serializer :=
  { id := 6,
    write := fun be v => match v with
      | .number q => writeIntw be q.floor
      | w => [Sum.inr w],
    read := fun be bs => match bs with
      | [Sum.inr v] => some v
      | [a, b, c, d] => some (.number ((readInt32 be [a, b, c, d] : Int) : Rat))
      | _ => none }

def longSerializer : Serializer := specCodec 7
def floatSerializer : Serializer := specCodec 8
def charSerializer : Serializer := specCodec 9
def dateSerializer : Serializer := specCodec 10
def localDateSerializer : Serializer := specCodec 11
def localTimeSerializer : Serializer := specCodec 12
def localDateTimeSerializer : Serializer := specCodec 13
def offsetDateTimeSerializer : Serializer := specCodec 14
def byteArraySerializer : Serializer := specCodec 15
def charArraySerializer : Serializer := specCodec 16
def booleanArraySerializer : Serializer := specCodec 17
def shortArraySerializer : Serializer := specCodec 18
def integerArraySerializer : Serializer := specCodec 19
def longArraySerializer : Serializer := specCodec 20
def doubleArraySerializer : Serializer := specCodec 21
def stringArraySerializer : Serializer := specCodec 22
def javaClassSerializer : Serializer := specCodec 23
def floatArraySerializer : Serializer := specCodec 24
def arrayListSerializer : Serializer := specCodec 25
def linkedListSerializer : Serializer := specCodec 26
def uuidSerializer : Serializer := specCodec 27
def bigDecimalSerializer : Serializer := specCodec 28
def bigIntSerializer : Serializer := specCodec 29
def javaArraySerializer : Serializer := specCodec 30

/-- Modelled from the spec: the self-describing structured-format codec
(Compact); schema handling is an external collaborator. -/
def compactStreamSerializer : Serializer := specCodec 31

/-- Modelled from the spec: the factory-based polymorphic codec
(IdentifiedDataSerializable); factories are external collaborators. -/
def identifiedSerializer : Serializer := specCodec 32

/-- Modelled from the spec: the reflective fixed-schema Portable codec. -/
def portableSerializer : Serializer := specCodec 33

/-- Modelled from the spec: the eager JSON fallback codec. -/
def jsonSerializer : Serializer := specCodec 34

/-- Modelled from the spec: the lazy wrapped-JSON-value fallback codec
(shares the JSON type id; the wrapping itself is outside the claims'
scope). -/
def hazelcastJsonValueSerializer : Serializer := specCodec 34

/-- Policy selecting the eager JSON codec or the lazy wrapped variant. -/
inductive JsonStringDeserializationPolicy : Type where
  | eager
  | lazyMode
deriving DecidableEq

/-- Modelled from the spec: the configuration surface consumed by the core
(§6).  Compact collaborator registration does not touch the codec registry
and is reflected in the compact-serializable observation on values. -/
structure SerializationConfigImpl where
  isBigEndian : Bool
  defaultNumberType : String
  jsonStringDeserializationPolicy : JsonStringDeserializationPolicy
  customSerializers : List Serializer
  globalSerializer : Option Serializer

/-- Modelled from the spec: reference defaults — big-endian, `double` as the
default number kind, eager JSON policy, no custom or global codecs. -/
def defaultConfig : SerializationConfigImpl :=
  ⟨true, "double", .eager, [], none⟩

/-- Registry state of the service: `id → codec` and `name → id` (mutable JS
object maps modelled as point-updated functions). -/
structure SvcState where
  registry : Int → Option Serializer
  serializerNameToId : String → Option Int

def emptyState : SvcState := ⟨fun _ => none, fun _ => none⟩

/-- JS truthiness of the number stored under a name (the id `0` is falsy,
exactly as in `if (this.serializerNameToId[name])`). -/
def numTruthy : Option Int → Bool
  | some i => !(i == 0)
  | none => false

/-- Registration, embedded from `registerSerializer`: the duplicate-name
probe tests JS truthiness of the stored id, the duplicate-id probe tests
presence of the stored codec object; on success both mappings are
inserted. -/
def registerSerializer (st : SvcState) (name : String) (s : Serializer) :
    Except JsError SvcState :=
  if numTruthy (st.serializerNameToId name) then
    .error (.rangeError "Given serializer name is already in the registry.")
  else if (st.registry s.id).isSome then
    .error (.rangeError "Given serializer id is already in the registry.")
  else
    .ok { registry := fun i => if i == s.id then some s else st.registry i,
          serializerNameToId := fun n =>
            if n == name then some s.id else st.serializerNameToId n }

/-- Default registrations in source order (`registerDefaultSerializers`),
including the policy-selected JSON fallback codec. -/
def registerDefaultSerializers (cfg : SerializationConfigImpl) (st0 : SvcState) :
    Except JsError SvcState := do
  let st ← registerSerializer st0 "string" stringSerializer
  let st ← registerSerializer st "double" doubleSerializer
  let st ← registerSerializer st "byte" byteSerializer
  let st ← registerSerializer st "boolean" booleanSerializer
  let st ← registerSerializer st "null" nullSerializer
  let st ← registerSerializer st "short" shortSerializer
  let st ← registerSerializer st "integer" integerSerializer
  let st ← registerSerializer st "long" longSerializer
  let st ← registerSerializer st "float" floatSerializer
  let st ← registerSerializer st "char" charSerializer
  let st ← registerSerializer st "date" dateSerializer
  let st ← registerSerializer st "localDate" localDateSerializer
  let st ← registerSerializer st "localTime" localTimeSerializer
  let st ← registerSerializer st "localDateTime" localDateTimeSerializer
  let st ← registerSerializer st "offsetDateTime" offsetDateTimeSerializer
  let st ← registerSerializer st "byteArray" byteArraySerializer
  let st ← registerSerializer st "charArray" charArraySerializer
  let st ← registerSerializer st "booleanArray" booleanArraySerializer
  let st ← registerSerializer st "shortArray" shortArraySerializer
  let st ← registerSerializer st "integerArray" integerArraySerializer
  let st ← registerSerializer st "longArray" longArraySerializer
  let st ← registerSerializer st "doubleArray" doubleArraySerializer
  let st ← registerSerializer st "stringArray" stringArraySerializer
  let st ← registerSerializer st "javaClass" javaClassSerializer
  let st ← registerSerializer st "floatArray" floatArraySerializer
  let st ← registerSerializer st "arrayList" arrayListSerializer
  let st ← registerSerializer st "linkedList" linkedListSerializer
  let st ← registerSerializer st "uuid" uuidSerializer
  let st ← registerSerializer st "bigDecimal" bigDecimalSerializer
  let st ← registerSerializer st "bigint" bigIntSerializer
  let st ← registerSerializer st "javaArray" javaArraySerializer
  let st ← registerSerializer st "!compact" compactStreamSerializer
  let st ← registerSerializer st "identified" identifiedSerializer
  let st ← registerSerializer st "!portable" portableSerializer
  if cfg.jsonStringDeserializationPolicy = JsonStringDeserializationPolicy.eager then
    registerSerializer st "!json" jsonSerializer
  else
    registerSerializer st "!json" hazelcastJsonValueSerializer

/-- Custom codec registrations under synthetic names keyed by the declared
tag id (`registerCustomSerializers`). -/
def registerCustomSerializers (cfg : SerializationConfigImpl) (st : SvcState) :
    Except JsError SvcState :=
  cfg.customSerializers.foldlM
    (fun acc s => registerSerializer acc ("!custom" ++ toString s.id) s) st

/-- Optional global codec registration (`registerGlobalSerializer`). -/
def registerGlobalSerializer (cfg : SerializationConfigImpl) (st : SvcState) :
    Except JsError SvcState :=
  match cfg.globalSerializer with
  | none => .ok st
  | some s => registerSerializer st "!global" s

/-- Construction-time registry build, in constructor order (compact
collaborator registration does not touch the codec registry). -/
def buildService (cfg : SerializationConfigImpl) : Except JsError SvcState := do
  let st ← registerDefaultSerializers cfg emptyState
  let st ← registerCustomSerializers cfg st
  registerGlobalSerializer cfg st

/-- Registry state of a service built with the default configuration. -/
def defaultState : SvcState :=
  match buildService defaultConfig with
  | .ok st => st
  | .error _ => emptyState

/-- Result of a JS serializer lookup: the JS `null` sentinel, the JS
`undefined` value (what indexing a map at a missing numeric key yields), or
an actual codec.  The resolver's chain checks `=== null` at each step, so
`jsUndefined` and `found` both stop the chain. -/
inductive JSRef : Type where
  | jsNull
  | jsUndefined
  | found (s : Serializer)

/-- Strict JS `=== null` test on a lookup result. -/
def JSRef.isNullRef : JSRef → Bool
  | .jsNull => true
  | _ => false

/-- Lookup by id (`findSerializerById`): plain registry indexing, absence is
JS `undefined` (`none`). -/
def findSerializerById (st : SvcState) (id : Int) : Option Serializer :=
  st.registry id

/-- Modelled from the spec: runtime kind-name classification of a value
(`Util.getType`, an external utility): typeof-based names for primitives,
`array`/`buffer` for arrays and byte buffers, dedicated names for the
long / UUID / date-time / big-decimal wrapper classes, `object`
otherwise. -/
def getType : JSVal → String
  | .undefVal => "undefined"
  | .null => "null"
  | .boolean _ => "boolean"
  | .number _ => "number"
  | .str _ => "string"
  | .buffer _ => "buffer"
  | .long _ => "long"
  | .bigintVal _ => "bigint"
  | .bigDecimal _ _ => "bigDecimal"
  | .uuid _ _ => "uuid"
  | .localDate _ _ _ => "localDate"
  | .localTime _ _ _ _ => "localTime"
  | .localDateTime _ _ _ _ _ _ _ => "localDateTime"
  | .offsetDateTime _ _ _ _ _ _ _ _ => "offsetDateTime"
  | .arr _ => "array"
  | .heapData _ => "object"
  | .obj _ _ _ _ _ _ _ _ _ _ _ => "object"

/-- Lookup by name (`findSerializerByName`): `number` is normalized to the
configured default number type, `buffer` to `byteArray`; array lookups
append the `Array` suffix; a missing name yields JS `null`, a name mapped to
an id missing from the registry yields JS `undefined`. -/
def findSerializerByName (cfg : SerializationConfigImpl) (st : SvcState)
    (name : String) (isArray : Bool) : JSRef :=
  let convertedName :=
    if name == "number" then cfg.defaultNumberType
    else if name == "buffer" then "byteArray"
    else name
  let serializerName := convertedName ++ (if isArray then "Array" else "")
  match st.serializerNameToId serializerName with
  | none => .jsNull
  | some id =>
    match findSerializerById st id with
    | some s => .found s
    | none => .jsUndefined

/-- Duck-typed probe for the factory-based polymorphic format
(`isIdentifiedDataSerializable`): `readData`/`writeData` methods present and
numeric `factoryId`/`classId` fields. -/
def isIdentifiedDataSerializable : JSVal → Bool
  | .obj _ _ _ _ _ idm _ fid cid _ _ => idm && fid.isSome && cid.isSome
  | _ => false

/-- Duck-typed probe for the portable format (`isPortableSerializable`). -/
def isPortableSerializable : JSVal → Bool
  | .obj _ _ _ _ _ _ pm fid cid _ _ => pm && fid.isSome && cid.isSome
  | _ => false

/-- Compact-serializable probe (`isCompactSerializable`): instance of the
generic compact record class, or a constructor registered as compact — both
folded into the value's compact observation; other runtime kinds have
constructors that are never registered as compact. -/
def isCompactSerializable : JSVal → Bool
  | .obj _ _ _ _ _ _ _ _ _ cp _ => cp
  | _ => false

/-- Custom-tag probe (`isCustomSerializable`): numeric `hzCustomId ≥ 1`. -/
def isCustomSerializable : JSVal → Bool
  | .obj _ _ (some c) _ _ _ _ _ _ _ _ => decide (1 ≤ c)
  | _ => false

/-- Default-type resolution (`lookupDefaultSerializer`): compact, then
factory-based, then portable probes; otherwise classification by runtime
kind name, with empty arrays looked up as arrays of the logical `number`
kind and non-empty arrays as arrays of their first element's kind. -/
def lookupDefaultSerializer (cfg : SerializationConfigImpl) (st : SvcState)
    (v : JSVal) : JSRef :=
  if isCompactSerializable v then .found compactStreamSerializer
  else if isIdentifiedDataSerializable v then .found identifiedSerializer
  else if isPortableSerializable v then .found portableSerializer
  else
    match v with
    | .arr [] => findSerializerByName cfg st "number" true
    | .arr (x :: _) => findSerializerByName cfg st (getType x) true
    | w => findSerializerByName cfg st (getType w) false

/-- Custom-tag resolution (`lookupCustomSerializer`): registry indexing at
the tag id — JS `undefined` (not `null`) when the id is unregistered. -/
def lookupCustomSerializer (st : SvcState) (v : JSVal) : JSRef :=
  if isCustomSerializable v then
    match v with
    | .obj _ _ (some c) _ _ _ _ _ _ _ _ =>
      match findSerializerById st c with
      | some s => .found s
      | none => .jsUndefined
    | _ => .jsNull
  else .jsNull

/-- Global-codec resolution (`lookupGlobalSerializer`). -/
def lookupGlobalSerializer (cfg : SerializationConfigImpl) (st : SvcState) : JSRef :=
  findSerializerByName cfg st "!global" false

/-- Precedence-based resolution (`findSerializerFor`): `undefined` fails;
`null` takes the null codec; then default types, custom tag, global codec
and the JSON fallback are probed, each step guarded by a strict `=== null`
test on the accumulator (so a JS `undefined` result stops the chain and is
returned as-is); a still-`null` accumulator fails. -/
def findSerializerFor (cfg : SerializationConfigImpl) (st : SvcState)
    (v : JSVal) : Except JsError JSRef :=
  match v with
  | .undefVal => .error (.rangeError "undefined cannot be serialized.")
  | w =>
    let s1 : JSRef := match w with
      | .null => findSerializerByName cfg st "null" false
      | _ => .jsNull
    let s2 := if s1.isNullRef then lookupDefaultSerializer cfg st w else s1
    let s3 := if s2.isNullRef then lookupCustomSerializer st w else s2
    let s4 := if s3.isNullRef then lookupGlobalSerializer cfg st else s3
    let s5 := if s4.isNullRef then findSerializerByName cfg st "!json" false else s4
    if s5.isNullRef then .error (.rangeError "There is no suitable serializer.")
    else .ok s5

/-- Presence-and-result view of a `getPartitionHash` accessor.  Plain
objects expose it when the accessor property is set; modelled from the spec
for envelopes: a `HeapData` exposes the 4-byte partition hash of its header
(§3: fixed-offset header fields). -/
def getPartitionHashProp : JSVal → Option Int
  | .obj _ (some h) _ _ _ _ _ _ _ _ _ => some h
  | .heapData bs => some (readInt32 true bs)
  | _ => none

/-- Default partition strategy (`defaultPartitionStrategy`): `0` for
null-ish values and values without a `getPartitionHash` accessor, otherwise
the accessor's result verbatim. -/
def defaultPartitionStrategy (v : JSVal) : Int :=
  match v with
  | .null => 0
  | .undefVal => 0
  | w =>
    match getPartitionHashProp w with
    | some h => h
    | none => 0

/-- Envelope pass-through predicate of `toData` (`isData`): a nominal
instance-of-`HeapData` check. -/
def isData : JSVal → Bool
  | .heapData _ => true
  | _ => false

/-- Serialization facade `toData`: pass an envelope through unchanged;
otherwise resolve a codec, compute the partition hash (a non-null-ish
`partitionKey` is recursively serialized with the default strategy and the
strategy is applied to the resulting envelope; otherwise the strategy is
applied to the value), then write the hash and the codec id big-endian
(`writeIntBE`) followed by the codec payload, and wrap the buffer in a new
envelope.  Accessing `.id` of a JS-`undefined` resolution result raises a
`TypeError`. -/
def toData (cfg : SerializationConfigImpl) (st : SvcState)
    (strategy : JSVal → Int) (v : JSVal) : Except JsError JSVal :=
  if isData v then .ok v
  else
    match findSerializerFor cfg st v with
    | .error e => .error e
    | .ok r =>
      let hashE : Except JsError Int :=
        match v with
        | .obj (some pk) a b c d e f g h i j =>
          match pk with
          | .null => .ok (strategy (.obj (some pk) a b c d e f g h i j))
          | .undefVal => .ok (strategy (.obj (some pk) a b c d e f g h i j))
          | k =>
            match toData cfg st defaultPartitionStrategy k with
            | .error e => .error e
            | .ok d => .ok (strategy d)
        | w => .ok (strategy w)
      match hashE with
      | .error e => .error e
      | .ok hash =>
        match r with
        | .found s =>
          .ok (.heapData (writeIntBEw hash ++ writeIntBEw s.id ++
            s.write cfg.isBigEndian v))
        | _ => .error .typeError

/-- Structural envelope test of `toObject`: truthiness of a `getType`
property — true for actual envelopes and for any object exposing a
`getType` method. -/
def hasGetTypeProp : JSVal → Bool
  | .heapData _ => true
  | .obj _ _ _ (some _) _ _ _ _ _ _ _ => true
  | _ => false

/-- Result of calling `getType()` on a value that has it.  Modelled from
the spec for envelopes: the type id occupies the four bytes after the
partition hash and is read big-endian. -/
def getTypeResult : JSVal → Int
  | .heapData bs => readInt32 true (bs.drop 4)
  | .obj _ _ _ (some t) _ _ _ _ _ _ _ => t
  | _ => 0

/-- Result of calling `toBuffer()` on a value that has it. -/
def toBufferResult : JSVal → List Wire
  | .heapData bs => bs
  | .obj _ _ _ _ buf _ _ _ _ _ _ => buf
  | _ => []

/-- Serialization facade `toObject`: loose-null and missing-`getType`
pass-through; otherwise the codec is looked up by the type id read from the
header (failing with the no-deserializer `RangeError` naming the id when it
is unregistered) and its `read` is run on the buffer past the 8-byte data
offset.  A codec read failure (impossible on codec-produced payloads) is
surfaced as an error. -/
def toObject (cfg : SerializationConfigImpl) (st : SvcState) (data : JSVal) :
    Except JsError JSVal :=
  match data with
  | .null => .ok .null
  | .undefVal => .ok .undefVal
  | d =>
    if hasGetTypeProp d then
      match findSerializerById st (getTypeResult d) with
      | none =>
        .error (.rangeError ("There is no suitable deserializer for data with type "
          ++ toString (getTypeResult d)))
      | some s =>
        match s.read cfg.isBigEndian ((toBufferResult d).drop 8) with
        | some w => .ok w
        | none => .error (.rangeError "Malformed payload.")
    else .ok d

/-- Facade `writeObject`: resolve, write the codec id in the output's
configured byte order (`writeInt`, not `writeIntBE`), then the payload —
no envelope header, no partition hash. -/
def writeObject (cfg : SerializationConfigImpl) (st : SvcState) (v : JSVal) :
    Except JsError (List Wire) :=
  match findSerializerFor cfg st v with
  | .error e => .error e
  | .ok (.found s) => .ok (writeIntw cfg.isBigEndian s.id ++ s.write cfg.isBigEndian v)
  | .ok _ => .error .typeError

/-- Facade `readObject`: read a codec id from the cursor in the configured
byte order and delegate to that codec's `read` — with no existence check on
the lookup, so an unregistered id raises a `TypeError` when `.read` of
JS `undefined` is accessed. -/
def readObject (cfg : SerializationConfigImpl) (st : SvcState)
    (input : List Wire) : Except JsError JSVal :=
  let serializerId := readInt32 cfg.isBigEndian input
  match findSerializerById st serializerId with
  | some s =>
    match s.read cfg.isBigEndian (input.drop 4) with
    | some w => .ok w
    | none => .error (.rangeError "Malformed payload.")
  | none => .error .typeError

mutual
/-- JSON-faithful values: null, booleans, finite numbers, strings, arrays
of JSON-faithful values, and plain objects (no special methods or tags)
whose fields are JSON-faithful.  For exactly these values the JSON fallback
reproduces a deep-equal value. -/
def jsonPure : JSVal → Bool
  | .null => true
  | .boolean _ => true
  | .number _ => true
  | .str _ => true
  | .arr xs => jsonPureList xs
  | .obj none none none none [] false false none none false fields =>
    jsonPureFields fields
  | _ => false

/-- Elementwise `jsonPure` over a list of values. -/
def jsonPureList : List JSVal → Bool
  | [] => true
  | x :: xs => jsonPure x && jsonPureList xs

/-- Elementwise `jsonPure` over object fields. -/
def jsonPureFields : List (String × JSVal) → Bool
  | [] => true
  | (_, x) :: xs => jsonPure x && jsonPureFields xs
end

/-- Supported-kind universe of the round-trip property: booleans, numbers
(all JS numbers, integral or floating), strings, byte sequences, big
integers and big decimals, UUIDs, date/time values, long wrappers, `null`,
empty arrays, homogeneous arrays of the scalar kinds with a registered
array codec (boolean, number, string, long), arrays of JSON-faithful
objects or nested arrays, nested plain structures (JSON-faithful objects),
and the structured/polymorphic categories (compact-registered values, and
values exposing the factory-based or portable contract), the latter without
a nested partition key. -/
def supported : JSVal → Bool
  | .undefVal => false
  | .heapData _ => false
  | .arr [] => true
  | .arr (x :: xs) =>
    match x with
    | .boolean _ => (x :: xs).all (fun w => getType w == "boolean")
    | .number _ => (x :: xs).all (fun w => getType w == "number")
    | .str _ => (x :: xs).all (fun w => getType w == "string")
    | .long _ => (x :: xs).all (fun w => getType w == "long")
    | .obj _ _ _ _ _ _ _ _ _ _ _ => jsonPureList (x :: xs)
    | .arr _ => jsonPureList (x :: xs)
    | _ => false
  | .obj none gph hz gt buf idm pm fid cid cp fields =>
    cp || (idm && fid.isSome && cid.isSome) || (pm && fid.isSome && cid.isSome) ||
      (gph.isNone && hz.isNone && gt.isNone && buf.isEmpty && !idm && !pm &&
        fid.isNone && cid.isNone && !cp && jsonPureFields fields)
  | .obj (some _) _ _ _ _ _ _ _ _ _ _ => false
  | _ => true

/-- C1: for every value in the supported-kind universe (booleans, numbers,
strings, byte sequences, arrays of each scalar kind including empty arrays,
nested plain structures, big-integer/big-decimal, UUID, date/time, and the
structured/polymorphic categories), `toObject (toData v)` is deep-equal to
`v` under the default configuration (deep equality is structural equality
of the modelled values). -/
theorem C1_roundtrip_supported (v : JSVal) (h : supported v = true) :
    (toData defaultConfig defaultState defaultPartitionStrategy v).bind
      (toObject defaultConfig defaultState) = .ok v := by
  cases v with
  | undefVal => simp [supported] at h
  | heapData bs => simp [supported] at h
  | null => rfl
  | boolean b => rfl
  | number q => rfl
  | str s => rfl
  | buffer bs => rfl
  | long n => rfl
  | bigintVal n => rfl
  | bigDecimal u sc => rfl
  | uuid a b => rfl
  | localDate y m d => rfl
  | localTime a b c d => rfl
  | localDateTime a b c d e f g => rfl
  | offsetDateTime a b c d e f g o => rfl
  | arr xs =>
    cases xs with
    | nil => rfl
    | cons x rest => cases x <;> rfl
  | obj pk gph hz gt buf idm pm fid cid cp fields =>
    cases pk with
    | some k => simp [supported] at h
    | none =>
      cases cp with
      | true => rfl
      | false =>
        cases idm with
        | true =>
          cases fid with
          | some f =>
            cases cid with
            | some c => rfl
            | none => simp [supported] at h
          | none => simp [supported] at h
        | false =>
          cases pm with
          | true =>
            cases fid with
            | some f =>
              cases cid with
              | some c => rfl
              | none => simp [supported] at h
            | none => simp [supported] at h
          | false =>
            cases hz with
            | some c => simp [supported] at h
            | none => rfl

/-- Witness for C1 at the concrete integer 14: serializing then
deserializing returns 14 (spec scenario (a)). -/
theorem C1_roundtrip_supported_witness :
    supported (.number 14) = true ∧
    (toData defaultConfig defaultState defaultPartitionStrategy (.number 14)).bind
      (toObject defaultConfig defaultState) = .ok (.number 14) :=
  ⟨rfl, C1_roundtrip_supported (.number 14) rfl⟩

/-- Unfolding equation for `toData` (the automatic equation lemma is not
generated for this recursion over the nested value type). -/
theorem toData_eq (cfg : SerializationConfigImpl) (st : SvcState)
    (strategy : JSVal → Int) (v : JSVal) :
    toData cfg st strategy v =
      (if isData v then .ok v
       else
        match findSerializerFor cfg st v with
        | .error e => .error e
        | .ok r =>
          let hashE : Except JsError Int :=
            match v with
            | .obj (some pk) a b c d e f g h i j =>
              match pk with
              | .null => .ok (strategy (.obj (some pk) a b c d e f g h i j))
              | .undefVal => .ok (strategy (.obj (some pk) a b c d e f g h i j))
              | k =>
                match toData cfg st defaultPartitionStrategy k with
                | .error e => .error e
                | .ok d => .ok (strategy d)
            | w => .ok (strategy w)
          match hashE with
          | .error e => .error e
          | .ok hash =>
            match r with
            | .found s =>
              .ok (.heapData (writeIntBEw hash ++ writeIntBEw s.id ++
                s.write cfg.isBigEndian v))
            | _ => .error .typeError) := by
  cases v with
  | obj pk a b c d e f g h i j =>
    cases pk with
    | none => delta toData; rfl
    | some k => cases k <;> (delta toData; rfl)
  | _ => delta toData; rfl

/-- Every successful `toData` call returns an actual envelope. -/
theorem toData_ok_heapData (cfg : SerializationConfigImpl) (st : SvcState)
    (strategy : JSVal → Int) (v d : JSVal)
    (h : toData cfg st strategy v = .ok d) : isData d = true := by
  rw [toData_eq] at h
  repeat' split at h
  all_goals
    first
      | exact Except.noConfusion h
      | (injection h with h2; subst h2; rfl)
      | (injection h with h2; subst h2; assumption)

/-- C8: `toData` is idempotent via envelope pass-through — whatever
`toData` returns is an envelope, and feeding it (under any configuration,
state and strategy) back to `toData` returns it unchanged, so
`toData (toData v) = toData v`. -/
theorem C8_toData_idempotent (cfg : SerializationConfigImpl) (st : SvcState)
    (strat1 strat2 : JSVal → Int) (v d : JSVal)
    (h : toData cfg st strat1 v = .ok d) :
    toData cfg st strat2 d = .ok d := by
  have hd := toData_ok_heapData cfg st strat1 v d h
  rw [toData_eq, if_pos hd]

/-- Witness for C8: the envelope of the integer 14 passes through `toData`
unchanged. -/
theorem C8_toData_idempotent_witness :
    toData defaultConfig defaultState defaultPartitionStrategy (.number 14) =
      .ok (.heapData (writeIntBEw 0 ++ writeIntBEw 2 ++ [Sum.inr (.number 14)])) ∧
    toData defaultConfig defaultState defaultPartitionStrategy
      (.heapData (writeIntBEw 0 ++ writeIntBEw 2 ++ [Sum.inr (.number 14)])) =
      .ok (.heapData (writeIntBEw 0 ++ writeIntBEw 2 ++ [Sum.inr (.number 14)])) :=
  ⟨rfl, C8_toData_idempotent defaultConfig defaultState defaultPartitionStrategy
    defaultPartitionStrategy (.number 14) _ rfl⟩

/-- Values carrying an effective nested partition key (a `partitionKey`
property that is not null-ish). -/
def hasPartitionKey : JSVal → Bool
  | .obj (some pk) _ _ _ _ _ _ _ _ _ _ =>
    match pk with
    | .null => false
    | .undefVal => false
    | _ => true
  | _ => false

/-- Shape of `toData` for values without a nested partition key. -/
theorem toData_no_key_eq (cfg : SerializationConfigImpl) (st : SvcState)
    (strategy : JSVal → Int) (v : JSVal) (hnopk : hasPartitionKey v = false) :
    toData cfg st strategy v =
      (if isData v then .ok v
       else
        match findSerializerFor cfg st v with
        | .error e => .error e
        | .ok r =>
          match r with
          | .found s =>
            .ok (.heapData (writeIntBEw (strategy v) ++ writeIntBEw s.id ++
              s.write cfg.isBigEndian v))
          | _ => .error .typeError) := by
  rw [toData_eq]
  cases v with
  | obj pk a b c d e f g h i j =>
    cases pk with
    | none => rfl
    | some k => cases k <;> first | rfl | simp [hasPartitionKey] at hnopk
  | _ => rfl

/-- Prefix lemma: the first eight wire units of a header-plus-payload
envelope are the two header fields. -/
theorem take8_header (x y c : List Wire) (hx : x.length = 4) (hy : y.length = 4) :
    (x ++ y ++ c).take 8 = x ++ y := by
  have hl : (x ++ y).length = 8 := by rw [List.length_append, hx, hy]
  rw [← hl, List.take_left]

/-- C2 (amended): the byte-order configuration does not apply to the header
— `toData` writes the 4-byte partition hash and the 4-byte type id with
`writeIntBE`, so flipping `isBigEndian` leaves the first eight envelope
bytes unchanged while the payload follows the configured order; the claim
that a little-endian Facade writes the header fields little-endian fails
(see the counterexample). -/
theorem C2_amended_header_bigendian (dnt : String)
    (pol : JsonStringDeserializationPolicy) (cs : List Serializer)
    (g : Option Serializer) (st : SvcState) (strategy : JSVal → Int)
    (v : JSVal) (bs1 bs2 : List Wire)
    (hnopk : hasPartitionKey v = false)
    (h1 : toData ⟨true, dnt, pol, cs, g⟩ st strategy v = .ok (.heapData bs1))
    (h2 : toData ⟨false, dnt, pol, cs, g⟩ st strategy v = .ok (.heapData bs2)) :
    bs1.take 8 = bs2.take 8 := by
  have hfind : findSerializerFor ⟨false, dnt, pol, cs, g⟩ st v =
      findSerializerFor ⟨true, dnt, pol, cs, g⟩ st v := rfl
  rw [toData_no_key_eq _ _ _ _ hnopk] at h1 h2
  rw [hfind] at h2
  by_cases hd : isData v
  · rw [if_pos hd] at h1 h2
    injection h1 with e1
    injection h2 with e2
    rw [e1] at e2
    injection e2 with e3
    rw [e3]
  · rw [if_neg hd] at h1 h2
    cases hf : findSerializerFor ⟨true, dnt, pol, cs, g⟩ st v with
    | error e => rw [hf] at h1; exact Except.noConfusion h1
    | ok r =>
      rw [hf] at h1 h2
      cases r with
      | jsNull => exact Except.noConfusion h1
      | jsUndefined => exact Except.noConfusion h1
      | found s =>
        injection h1 with e1
        injection h2 with e2
        injection e1 with e1b
        injection e2 with e2b
        rw [← e1b, ← e2b]
        rw [take8_header _ _ _ (length_writeIntBEw _) (length_writeIntBEw _),
          take8_header _ _ _ (length_writeIntBEw _) (length_writeIntBEw _)]

/-- Counterexample for C2: a little-endian Facade over the default registry
(same registry as the default build) serializes the integer 1 with a
big-endian type-id field (`int32BE 6`) and a little-endian payload
(`int32LE 1`); the header field differs from its little-endian form, so the
three envelope regions do not share the configured byte order. -/
theorem C2_counterexample :
    buildService ⟨false, "integer", .eager, [], none⟩ = .ok defaultState ∧
    toData ⟨false, "integer", .eager, [], none⟩ defaultState defaultPartitionStrategy
      (.number 1) =
      .ok (.heapData (wires (int32BE 0) ++ wires (int32BE 6) ++ wires (int32LE 1))) ∧
    int32BE 6 ≠ int32LE 6 ∧ int32LE 1 ≠ int32BE 1 :=
  ⟨rfl, rfl, by decide, by decide⟩

/-- Witness for C2 (amended): the big- and little-endian envelopes of the
integer 1 share their first eight bytes. -/
theorem C2_amended_header_bigendian_witness :
    toData ⟨true, "integer", .eager, [], none⟩ defaultState defaultPartitionStrategy
      (.number 1) =
      .ok (.heapData (wires (int32BE 0) ++ wires (int32BE 6) ++ wires (int32BE 1))) ∧
    toData ⟨false, "integer", .eager, [], none⟩ defaultState defaultPartitionStrategy
      (.number 1) =
      .ok (.heapData (wires (int32BE 0) ++ wires (int32BE 6) ++ wires (int32LE 1))) ∧
    (wires (int32BE 0) ++ wires (int32BE 6) ++ wires (int32BE 1)).take 8 =
      (wires (int32BE 0) ++ wires (int32BE 6) ++ wires (int32LE 1)).take 8 :=
  ⟨rfl, rfl,
    C2_amended_header_bigendian "integer" .eager [] none defaultState
      defaultPartitionStrategy (.number 1) _ _ rfl rfl rfl⟩

set_option maxHeartbeats 1000000 in
/-- C3 (amended): resolution over the default-built service is total for
every value other than `undefined` and other than custom-tagged values:
`undefined` fails with the unserializable `RangeError`; every non-tagged
value resolves to some codec (the JSON fallback at worst); but a value
carrying a numeric custom tag `hzCustomId ≥ 1` with no codec registered
under that id does NOT fall through to the global serializer or the JSON
fallback — `findSerializerFor` returns JS `undefined` (the chain guards
test `=== null` only) and `toData` then fails with a `TypeError`. -/
theorem C3_amended_resolution_totality (v : JSVal) :
    findSerializerFor defaultConfig defaultState .undefVal =
      .error (.rangeError "undefined cannot be serialized.") ∧
    (v ≠ .undefVal → isCustomSerializable v = false →
      ∃ s, findSerializerFor defaultConfig defaultState v = .ok (.found s)) ∧
    (∀ (gph gt : Option Int) (buf : List Wire) (fid cid : Option Int)
        (fs : List (String × JSVal)) (c : Int), 1 ≤ c →
      findSerializerById defaultState c = none →
      findSerializerFor defaultConfig defaultState
        (.obj none gph (some c) gt buf false false fid cid false fs) = .ok .jsUndefined ∧
      toData defaultConfig defaultState defaultPartitionStrategy
        (.obj none gph (some c) gt buf false false fid cid false fs) =
        .error .typeError) := by
  refine ⟨rfl, ?_, ?_⟩
  · intro hne hcust
    cases v with
    | undefVal => exact absurd rfl hne
    | null => exact ⟨nullSerializer, rfl⟩
    | boolean b => exact ⟨booleanSerializer, rfl⟩
    | number q => exact ⟨doubleSerializer, rfl⟩
    | str s => exact ⟨stringSerializer, rfl⟩
    | buffer bs => exact ⟨byteArraySerializer, rfl⟩
    | long n => exact ⟨longSerializer, rfl⟩
    | bigintVal n => exact ⟨bigIntSerializer, rfl⟩
    | bigDecimal u sc => exact ⟨bigDecimalSerializer, rfl⟩
    | uuid a b => exact ⟨uuidSerializer, rfl⟩
    | localDate a b c => exact ⟨localDateSerializer, rfl⟩
    | localTime a b c d => exact ⟨localTimeSerializer, rfl⟩
    | localDateTime a b c d e f g => exact ⟨localDateTimeSerializer, rfl⟩
    | offsetDateTime a b c d e f g o => exact ⟨offsetDateTimeSerializer, rfl⟩
    | heapData bs => exact ⟨jsonSerializer, rfl⟩
    | arr xs =>
      cases xs with
      | nil => exact ⟨doubleArraySerializer, rfl⟩
      | cons x rest =>
        cases x with
        | boolean b => exact ⟨booleanArraySerializer, rfl⟩
        | number q => exact ⟨doubleArraySerializer, rfl⟩
        | str s => exact ⟨stringArraySerializer, rfl⟩
        | long n => exact ⟨longArraySerializer, rfl⟩
        | _ => exact ⟨jsonSerializer, rfl⟩
    | obj pk gph hz gt buf idm pm fid cid cp fs =>
      cases cp with
      | true => exact ⟨compactStreamSerializer, rfl⟩
      | false =>
        cases idm <;> cases pm <;> cases fid <;> cases cid <;>
          first
            | exact ⟨identifiedSerializer, rfl⟩
            | exact ⟨portableSerializer, rfl⟩
            | (cases hz with
               | none => exact ⟨jsonSerializer, rfl⟩
               | some c3 =>
                 refine ⟨jsonSerializer, ?_⟩
                 simp only [isCustomSerializable] at hcust
                 simp only [findSerializerFor, lookupDefaultSerializer,
                   lookupCustomSerializer, lookupGlobalSerializer,
                   isCompactSerializable, isIdentifiedDataSerializable,
                   isPortableSerializable, isCustomSerializable, getType,
                   JSRef.isNullRef, hcust]
                 rfl)
  · intro gph gt buf fid cid fs c h1c hreg
    have hfind : findSerializerFor defaultConfig defaultState
        (.obj none gph (some c) gt buf false false fid cid false fs) = .ok .jsUndefined := by
      simp only [findSerializerFor, lookupDefaultSerializer, lookupCustomSerializer,
        lookupGlobalSerializer, isCompactSerializable, isIdentifiedDataSerializable,
        isPortableSerializable, isCustomSerializable, getType, JSRef.isNullRef,
        decide_eq_true h1c]
      rw [hreg]
      rfl
    refine ⟨hfind, ?_⟩
    rw [toData_eq, hfind]
    rfl

/-- Counterexample for C3: the object tagged `hzCustomId = 4242` (an
unregistered id) resolves to JS `undefined` rather than to any codec, and
serializing it raises a `TypeError` instead of using the global/JSON
fallback. -/
theorem C3_counterexample :
    findSerializerFor defaultConfig defaultState
      (.obj none none (some 4242) none [] false false none none false []) =
      .ok .jsUndefined ∧
    toData defaultConfig defaultState defaultPartitionStrategy
      (.obj none none (some 4242) none [] false false none none false []) =
      .error .typeError :=
  ⟨rfl, rfl⟩

/-- Witness for C3 (amended) at the string value and at the tag 4242. -/
theorem C3_amended_resolution_totality_witness :
    ((.str "a" : JSVal) ≠ .undefVal) ∧ isCustomSerializable (.str "a") = false ∧
    (∃ s, findSerializerFor defaultConfig defaultState (.str "a") = .ok (.found s)) ∧
    (1 : Int) ≤ 4242 ∧ findSerializerById defaultState 4242 = none ∧
    (findSerializerFor defaultConfig defaultState
        (.obj none none (some 4242) none [] false false none none false []) =
        .ok .jsUndefined ∧
      toData defaultConfig defaultState defaultPartitionStrategy
        (.obj none none (some 4242) none [] false false none none false []) =
        .error .typeError) :=
  ⟨fun h => JSVal.noConfusion h, rfl,
    (C3_amended_resolution_totality (.str "a")).2.1 (fun h => JSVal.noConfusion h) rfl,
    by norm_num, rfl,
    (C3_amended_resolution_totality .undefVal).2.2 none none [] none none [] 4242
      (by norm_num) rfl⟩

/-- C4: structural precedence — a compact-serializable value always
resolves to the compact codec; a non-compact value satisfying the
factory-based probe resolves to the identified codec; a non-compact,
non-identified value satisfying the portable probe resolves to the portable
codec.  The three probes run in that order, strictly before runtime
kind-name classification, under every configuration and registry state, so
such values never reach a scalar/array codec or the JSON fallback. -/
theorem C4_structural_precedence (cfg : SerializationConfigImpl) (st : SvcState)
    (v : JSVal) :
    (isCompactSerializable v = true →
      findSerializerFor cfg st v = .ok (.found compactStreamSerializer)) ∧
    (isCompactSerializable v = false → isIdentifiedDataSerializable v = true →
      findSerializerFor cfg st v = .ok (.found identifiedSerializer)) ∧
    (isCompactSerializable v = false → isIdentifiedDataSerializable v = false →
      isPortableSerializable v = true →
      findSerializerFor cfg st v = .ok (.found portableSerializer)) := by
  refine ⟨?_, ?_, ?_⟩
  · intro hcp
    cases v <;>
      first
        | (simp only [isCompactSerializable] at hcp
           first
             | done
             | exact Bool.noConfusion hcp)
        | (simp only [findSerializerFor, lookupDefaultSerializer, hcp,
            JSRef.isNullRef, if_true, ite_true]
           rfl)
  · intro hcp hid
    cases v <;>
      first
        | (simp only [isIdentifiedDataSerializable] at hid
           first
             | done
             | exact Bool.noConfusion hid)
        | (simp only [findSerializerFor, lookupDefaultSerializer, hcp, hid,
            JSRef.isNullRef, if_true, ite_true, if_false, ite_false,
            Bool.false_eq_true]
           try rfl)
  · intro hcp hid hpm
    cases v <;>
      first
        | (simp only [isPortableSerializable] at hpm
           first
             | done
             | exact Bool.noConfusion hpm)
        | (simp only [findSerializerFor, lookupDefaultSerializer, hcp, hid, hpm,
            JSRef.isNullRef, if_true, ite_true, if_false, ite_false,
            Bool.false_eq_true]
           try rfl)

/-- Witness for C4 at a compact object, an identified object and a portable
object over the default service. -/
theorem C4_structural_precedence_witness :
    isCompactSerializable (.obj none none none none [] false false none none true []) = true ∧
    findSerializerFor defaultConfig defaultState
      (.obj none none none none [] false false none none true []) =
      .ok (.found compactStreamSerializer) ∧
    isIdentifiedDataSerializable
      (.obj none none none none [] true false (some 1) (some 2) false []) = true ∧
    findSerializerFor defaultConfig defaultState
      (.obj none none none none [] true false (some 1) (some 2) false []) =
      .ok (.found identifiedSerializer) ∧
    isPortableSerializable
      (.obj none none none none [] false true (some 1) (some 2) false []) = true ∧
    findSerializerFor defaultConfig defaultState
      (.obj none none none none [] false true (some 1) (some 2) false []) =
      .ok (.found portableSerializer) :=
  ⟨rfl,
    (C4_structural_precedence defaultConfig defaultState
      (.obj none none none none [] false false none none true [])).1 rfl,
    rfl,
    (C4_structural_precedence defaultConfig defaultState
      (.obj none none none none [] true false (some 1) (some 2) false [])).2.1 rfl rfl,
    rfl,
    (C4_structural_precedence defaultConfig defaultState
      (.obj none none none none [] false true (some 1) (some 2) false [])).2.2 rfl rfl rfl⟩

/-- Raw registry lookup of a fully-formed serializer name (the body of
`findSerializerByName` after name normalization). -/
def registryLookup (st : SvcState) (n : String) : JSRef :=
  match st.serializerNameToId n with
  | none => .jsNull
  | some id =>
    match findSerializerById st id with
    | some s => .found s
    | none => .jsUndefined

/-- C5: runtime-kind classification of arrays and name normalization — an
empty array is looked up as an array of the logical `number` kind and a
non-empty array as an array of its first element's kind; the name `number`
resolves to the configured `defaultNumberType` (with the `Array` suffix
appended for array lookups), `buffer` resolves to the byte-array codec, and
any other name is looked up as-is plus the suffix.  Concretely, over the
default registry an empty array resolves to the double-array codec under
the default number type and to the short-array codec when `short` is
configured, and a byte buffer resolves to the byte-array codec. -/
theorem C5_kind_name_resolution (cfg : SerializationConfigImpl) (st : SvcState)
    (x : JSVal) (xs : List JSVal) (b : Bool) (name : String) :
    lookupDefaultSerializer cfg st (.arr []) =
      findSerializerByName cfg st "number" true ∧
    lookupDefaultSerializer cfg st (.arr (x :: xs)) =
      findSerializerByName cfg st (getType x) true ∧
    findSerializerByName cfg st "number" b =
      registryLookup st (cfg.defaultNumberType ++ (if b then "Array" else "")) ∧
    findSerializerByName cfg st "buffer" b =
      registryLookup st ("byteArray" ++ (if b then "Array" else "")) ∧
    (name ≠ "number" → name ≠ "buffer" →
      findSerializerByName cfg st name b =
        registryLookup st (name ++ (if b then "Array" else ""))) ∧
    buildService ⟨true, "short", .eager, [], none⟩ = .ok defaultState ∧
    findSerializerFor defaultConfig defaultState (.arr []) =
      .ok (.found doubleArraySerializer) ∧
    findSerializerFor ⟨true, "short", .eager, [], none⟩ defaultState (.arr []) =
      .ok (.found shortArraySerializer) ∧
    findSerializerFor defaultConfig defaultState (.buffer [1, 2]) =
      .ok (.found byteArraySerializer) := by
  refine ⟨rfl, rfl, rfl, rfl, ?_, rfl, rfl, rfl, rfl⟩
  intro h1 h2
  simp [findSerializerByName, registryLookup, findSerializerById, h1, h2]

/-- Witness for C5 at the non-normalized name `uuid`. -/
theorem C5_kind_name_resolution_witness :
    ("uuid" : String) ≠ "number" ∧ ("uuid" : String) ≠ "buffer" ∧
    findSerializerByName defaultConfig defaultState "uuid" false =
      registryLookup defaultState ("uuid" ++ (if false then "Array" else "")) :=
  ⟨by decide, by decide,
    (C5_kind_name_resolution defaultConfig defaultState .null [] false
      "uuid").2.2.2.2.1 (by decide) (by decide)⟩

/-- Shape of `toData` for partition-aware objects (non-null-ish
`partitionKey`): the key is serialized recursively with the default
strategy and the caller's strategy is applied to the resulting envelope. -/
theorem toData_key_eq (cfg : SerializationConfigImpl) (st : SvcState)
    (strategy : JSVal → Int) (pk : JSVal) (a b c : Option Int) (buf : List Wire)
    (e f : Bool) (g h : Option Int) (i : Bool) (j : List (String × JSVal))
    (hn : pk ≠ .null) (hu : pk ≠ .undefVal) :
    toData cfg st strategy (.obj (some pk) a b c buf e f g h i j) =
      (match findSerializerFor cfg st (.obj (some pk) a b c buf e f g h i j) with
       | .error e2 => .error e2
       | .ok r =>
         match (match toData cfg st defaultPartitionStrategy pk with
                | .error e2 => (.error e2 : Except JsError Int)
                | .ok d => .ok (strategy d)) with
         | .error e2 => .error e2
         | .ok hash =>
           match r with
           | .found s =>
             .ok (.heapData (writeIntBEw hash ++ writeIntBEw s.id ++
               s.write cfg.isBigEndian (.obj (some pk) a b c buf e f g h i j)))
           | _ => .error .typeError) := by
  cases pk with
  | null => exact absurd rfl hn
  | undefVal => exact absurd rfl hu
  | _ => delta toData; rfl

/-- C6: the partition hash written into the header equals the strategy
applied to the envelope obtained by recursively serializing a non-null-ish
`partitionKey` — not to the outer value; a value without such a key gets
the strategy applied to the value itself; and the default strategy returns
0 unless the value exposes a `getPartitionHash` accessor, whose result is
used verbatim. -/
theorem C6_partition_hash (cfg : SerializationConfigImpl) (st : SvcState)
    (strategy : JSVal → Int) (v : JSVal) :
    (∀ (pk : JSVal) (a b c : Option Int) (buf : List Wire) (e f : Bool)
        (g h : Option Int) (i : Bool) (j : List (String × JSVal))
        (d : JSVal) (s : Serializer),
      pk ≠ .null → pk ≠ .undefVal →
      toData cfg st defaultPartitionStrategy pk = .ok d →
      findSerializerFor cfg st (.obj (some pk) a b c buf e f g h i j) =
        .ok (.found s) →
      toData cfg st strategy (.obj (some pk) a b c buf e f g h i j) =
        .ok (.heapData (writeIntBEw (strategy d) ++ writeIntBEw s.id ++
          s.write cfg.isBigEndian (.obj (some pk) a b c buf e f g h i j)))) ∧
    (hasPartitionKey v = false → isData v = false →
      ∀ s, findSerializerFor cfg st v = .ok (.found s) →
      toData cfg st strategy v =
        .ok (.heapData (writeIntBEw (strategy v) ++ writeIntBEw s.id ++
          s.write cfg.isBigEndian v))) ∧
    defaultPartitionStrategy v = (getPartitionHashProp v).getD 0 := by
  refine ⟨?_, ?_, ?_⟩
  · intro pk a b c buf e f g h i j d s hn hu htd hfind
    rw [toData_key_eq cfg st strategy pk a b c buf e f g h i j hn hu, hfind, htd]
  · intro hnopk hnd s hfind
    rw [toData_no_key_eq _ _ _ _ hnopk, hfind, hnd]
    rfl
  · cases v with
    | obj pk gph hz gt buf idm pm fid cid cp fs => cases gph <;> rfl
    | _ => rfl

/-- Witness for C6 (spec scenario (c)): with a strategy mapping envelopes
to 77 and everything else to 5, the object whose `partitionKey` is the
string `key` gets header hash 77 — the strategy applied to the serialized
key — and not 5, the strategy applied to the outer value. -/
theorem C6_partition_hash_witness :
    toData defaultConfig defaultState
      (fun w => match w with | JSVal.heapData _ => (77 : Int) | _ => 5)
      (.obj (some (.str "key")) none none none [] false false none none false []) =
      .ok (.heapData (writeIntBEw 77 ++ writeIntBEw 34 ++
        [Sum.inr (.obj (some (.str "key")) none none none [] false false none none
          false [])])) ∧
    (fun w => match w with | JSVal.heapData _ => (77 : Int) | _ => 5)
      (.obj (some (.str "key")) none none none [] false false none none false []) =
      5 ∧
    (77 : Int) ≠ 5 :=
  ⟨(C6_partition_hash defaultConfig defaultState
      (fun w => match w with | JSVal.heapData _ => (77 : Int) | _ => 5) .null).1
      (.str "key") none none none [] false false none none false []
      (.heapData (writeIntBEw 0 ++ writeIntBEw 1 ++ [Sum.inr (JSVal.str "key")]))
      jsonSerializer (fun h => JSVal.noConfusion h) (fun h => JSVal.noConfusion h)
      rfl rfl,
    rfl, by decide⟩

/-- C7 (amended): `toObject` on an envelope whose type id has no registered
codec fails with the no-deserializer `RangeError` naming the unknown id;
`readObject` reads the id from the cursor and delegates to that codec's
`read` for registered ids, but performs no existence check, so an unknown
id makes it fail with a `TypeError` (accessing `.read` of JS `undefined`),
not with the named no-deserializer error. -/
theorem C7_amended_deserialization (rest pay : List Wire) :
    (∀ hash t, 0 ≤ t → t < 2147483648 →
      findSerializerById defaultState t = none →
      toObject defaultConfig defaultState
        (.heapData (writeIntBEw hash ++ writeIntBEw t ++ rest)) =
        .error (.rangeError
          ("There is no suitable deserializer for data with type " ++ toString t))) ∧
    (∀ sid, 0 ≤ sid → sid < 2147483648 →
      findSerializerById defaultState sid = none →
      readObject defaultConfig defaultState (writeIntBEw sid ++ pay) =
        .error .typeError) ∧
    readObject defaultConfig defaultState (writeIntBEw 1 ++ pay) =
      (match stringSerializer.read true pay with
       | some w => .ok w
       | none => .error (.rangeError "Malformed payload.")) := by
  refine ⟨?_, ?_, ?_⟩
  · intro hash t h0 h1 hreg
    have e1 : (writeIntBEw hash ++ writeIntBEw t ++ rest).drop 4 =
        writeIntBEw t ++ rest := by
      rw [List.append_assoc]
      rw [show (4 : Nat) = (writeIntBEw hash).length from rfl, List.drop_left]
    simp only [toObject, hasGetTypeProp, getTypeResult, e1,
      readInt32_writeIntBEw t h0 h1, hreg, if_true, ite_true]
  · intro sid h0 h1 hreg
    simp only [readObject, defaultConfig, readInt32_writeIntBEw sid h0 h1, hreg]
  · rfl

/-- Counterexample for C7: for the unregistered id 9999, `toObject` raises
the no-deserializer `RangeError` naming the id, but `readObject` raises a
bare `TypeError` — not the same read-by-id failure discipline. -/
theorem C7_counterexample :
    readObject defaultConfig defaultState (writeIntBEw 9999) = .error .typeError ∧
    toObject defaultConfig defaultState
      (.heapData (writeIntBEw 0 ++ writeIntBEw 9999 ++ [])) =
      .error (.rangeError "There is no suitable deserializer for data with type 9999") :=
  ⟨rfl, rfl⟩

/-- Witness for C7 (amended) at the unregistered id 9999. -/
theorem C7_amended_deserialization_witness :
    (0 : Int) ≤ 9999 ∧ (9999 : Int) < 2147483648 ∧
    findSerializerById defaultState 9999 = none ∧
    toObject defaultConfig defaultState
      (.heapData (writeIntBEw 0 ++ writeIntBEw 9999 ++ [])) =
      .error (.rangeError "There is no suitable deserializer for data with type 9999") ∧
    readObject defaultConfig defaultState (writeIntBEw 9999 ++ []) =
      .error .typeError :=
  ⟨by norm_num, by norm_num, rfl,
    (C7_amended_deserialization [] []).1 0 9999 (by norm_num) (by norm_num) rfl,
    (C7_amended_deserialization [] []).2.1 9999 (by norm_num) (by norm_num) rfl⟩

/-- Counterexample for C9: after registering the name `a` with a codec of
id 0, a second registration under the SAME name succeeds (the duplicate
probe tests JS truthiness of the stored id, and 0 is falsy) and silently
rebinds the name to the new id 7 — no duplicate-name failure. -/
theorem C9_counterexample :
    (registerSerializer emptyState "a" (specCodec 0)).isOk = true ∧
    (match registerSerializer emptyState "a" (specCodec 0) with
     | .ok st1 => registerSerializer st1 "a" (specCodec 7)
     | .error e => .error e).isOk = true ∧
    (match registerSerializer emptyState "a" (specCodec 0) with
     | .ok st1 =>
       match registerSerializer st1 "a" (specCodec 7) with
       | .ok st2 => st2.serializerNameToId "a"
       | .error _ => none
     | .error _ => none) = some 7 :=
  ⟨rfl, rfl, rfl⟩

/-- C9 (amended): `registerSerializer` fails with the duplicate-name error
whenever the name is already registered with a codec of NONZERO id, and
with the duplicate-id error whenever the codec's id is already registered
(the id probe tests object presence, so this holds for id 0 as well);
with a fresh (or zero-bound) name and a fresh id it inserts both mappings —
in particular a name previously bound to the codec of id 0 is not detected
as a duplicate and is silently rebound. -/
theorem C9_amended_registerSerializer (st : SvcState) (name : String)
    (s : Serializer) :
    ((∃ i, st.serializerNameToId name = some i ∧ i ≠ 0) →
      registerSerializer st name s =
        .error (.rangeError "Given serializer name is already in the registry.")) ∧
    (numTruthy (st.serializerNameToId name) = false →
      (st.registry s.id).isSome = true →
      registerSerializer st name s =
        .error (.rangeError "Given serializer id is already in the registry.")) ∧
    (numTruthy (st.serializerNameToId name) = false →
      st.registry s.id = none →
      ∃ st2, registerSerializer st name s = .ok st2 ∧
        st2.serializerNameToId name = some s.id ∧ st2.registry s.id = some s) ∧
    (st.serializerNameToId name = some 0 → st.registry s.id = none →
      ∃ st2, registerSerializer st name s = .ok st2 ∧
        st2.serializerNameToId name = some s.id) := by
  refine ⟨?_, ?_, ?_, ?_⟩
  · rintro ⟨i, hi, hne⟩
    simp [registerSerializer, numTruthy, hi, hne]
  · intro h1 h2
    simp [registerSerializer, h1, h2]
  · intro h1 h2
    exact ⟨⟨fun i => if i == s.id then some s else st.registry i,
            fun n => if n == name then some s.id else st.serializerNameToId n⟩,
      by simp [registerSerializer, h1, h2], by simp, by simp⟩
  · intro h1 h2
    have hn : numTruthy (st.serializerNameToId name) = false := by
      simp [numTruthy, h1]
    exact ⟨⟨fun i => if i == s.id then some s else st.registry i,
            fun n => if n == name then some s.id else st.serializerNameToId n⟩,
      by simp [registerSerializer, hn, h2], by simp⟩

/-- Witness for C9 (amended) over the default registry. -/
theorem C9_amended_registerSerializer_witness :
    defaultState.serializerNameToId "string" = some 1 ∧ (1 : Int) ≠ 0 ∧
    registerSerializer defaultState "string" (specCodec 99) =
      .error (.rangeError "Given serializer name is already in the registry.") ∧
    numTruthy (defaultState.serializerNameToId "zzz") = false ∧
    (defaultState.registry 1).isSome = true ∧
    registerSerializer defaultState "zzz" (specCodec 1) =
      .error (.rangeError "Given serializer id is already in the registry.") ∧
    defaultState.registry 99 = none ∧
    (∃ st2, registerSerializer defaultState "zzz" (specCodec 99) = .ok st2 ∧
      st2.serializerNameToId "zzz" = some 99 ∧ st2.registry 99 = some (specCodec 99)) :=
  ⟨rfl, by norm_num, (C9_amended_registerSerializer defaultState "string"
      (specCodec 99)).1 ⟨1, rfl, by norm_num⟩,
    rfl, rfl,
    (C9_amended_registerSerializer defaultState "zzz" (specCodec 1)).2.1 rfl rfl,
    rfl,
    (C9_amended_registerSerializer defaultState "zzz" (specCodec 99)).2.2.1 rfl rfl⟩

/-- C10: the two pass-through predicates differ — `toObject` passes
through every non-null-ish value lacking a `getType` property (a structural
check), while `toData` passes through only actual `HeapData` envelopes (a
nominal instance check).  An object that merely exposes a `getType` method
(and a buffer) is treated as an envelope by `toObject` and decoded, yet
`toData` does not pass it through: it serializes it afresh (through the
JSON fallback here). -/
theorem C10_passthrough_asymmetry (cfg : SerializationConfigImpl) (st : SvcState)
    (v : JSVal) (bs buf : List Wire) :
    (v ≠ .null → v ≠ .undefVal → hasGetTypeProp v = false →
      toObject cfg st v = .ok v) ∧
    isData (.heapData bs) = true ∧
    (∀ (pk : Option JSVal) (gph hz : Option Int) (t : Int) (idm pm : Bool)
        (fid cid : Option Int) (cp : Bool) (fs : List (String × JSVal)),
      hasGetTypeProp (.obj pk gph hz (some t) buf idm pm fid cid cp fs) = true ∧
      isData (.obj pk gph hz (some t) buf idm pm fid cid cp fs) = false) ∧
    toObject defaultConfig defaultState
      (.obj none none none (some 1)
        (writeIntBEw 0 ++ writeIntBEw 1 ++ [Sum.inr (.str "hi")])
        false false none none false []) = .ok (.str "hi") ∧
    toData defaultConfig defaultState defaultPartitionStrategy
      (.obj none none none (some 1)
        (writeIntBEw 0 ++ writeIntBEw 1 ++ [Sum.inr (.str "hi")])
        false false none none false []) =
      .ok (.heapData (writeIntBEw 0 ++ writeIntBEw 34 ++
        [Sum.inr (.obj none none none (some 1)
          (writeIntBEw 0 ++ writeIntBEw 1 ++ [Sum.inr (.str "hi")])
          false false none none false [])])) := by
  refine ⟨?_, rfl, ?_, rfl, rfl⟩
  · intro h1 h2 h3
    cases v <;>
      first
        | exact absurd rfl h1
        | exact absurd rfl h2
        | (apply absurd h3
           simp [hasGetTypeProp]
           done)
        | simp [toObject, h3]
  · intro pk gph hz t idm pm fid cid cp fs
    exact ⟨rfl, rfl⟩

/-- Witness for C10: the number 3 (no `getType` property) passes through
`toObject` unchanged. -/
theorem C10_passthrough_asymmetry_witness :
    ((.number 3 : JSVal) ≠ .null) ∧ ((.number 3 : JSVal) ≠ .undefVal) ∧
    hasGetTypeProp (.number 3) = false ∧
    toObject defaultConfig defaultState (.number 3) = .ok (.number 3) :=
  ⟨fun h => JSVal.noConfusion h, fun h => JSVal.noConfusion h, rfl,
    (C10_passthrough_asymmetry defaultConfig defaultState (.number 3) [] []).1
      (fun h => JSVal.noConfusion h) (fun h => JSVal.noConfusion h) rfl⟩
